import Mathlib

/-!
Verification of the OpenJournal voice-journaling client.

The session orchestrator (a React hook built around mutable refs and
event callbacks) is modelled as an explicit state machine: the `Session`
record holds the refs and React state of the hook, and `step` processes
one asynchronous callback (socket message, timer, promise resolution,
UI command) atomically, matching the single-threaded event-loop
semantics of the source.  The audio codec functions are modelled over
rational samples, and the backend endpoints' credential checks are
modelled up to their first upstream call.
-/

namespace OpenJournal

/-- Speaker role of a transcript entry. -/
inductive Role
  | user
  | ai
deriving DecidableEq, Repr

/-- One transcript entry, immutable once appended. -/
structure Entry where
  role : Role
  text : String
deriving DecidableEq, Repr

/-- Connection status of the session. -/
inductive Status
  | disconnected
  | connecting
  | connected
  | error
deriving DecidableEq, Repr

/-- Strip leading and trailing whitespace from a character list. -/
def trimChars (l : List Char) : List Char :=
  ((l.dropWhile Char.isWhitespace).reverse.dropWhile Char.isWhitespace).reverse

/-- JavaScript `String.prototype.trim`. -/
def jsTrim (s : String) : String := String.mk (trimChars s.data)

/-- The mutable state of the session hook: each field mirrors one ref or
React state of the source (`statusState`, `errorMessage`,
`transcriptRef`, the interim-transcript callback value, `isProcessingRef`,
`isListeningRef`, `isAiSpeakingRef`, `manualModeRef`, `manualBufferRef`,
`pendingManualCommitRef`, `pendingManualCommitTimeoutRef`,
`startRecordingTimeoutRef`, the open WebSocket, the launched-but-not-yet
open recording start, the in-flight dialogue and voice fetches, and the
playing audio object).  `commitsSent`, `pipelines` and `relistenAttempts`
are ghost counters of outbound commit chunks, started turn pipelines and
launched recording starts. -/
structure Session where
  status : Status
  errorMessage : Option String
  transcript : List Entry
  interim : String
  isProcessing : Bool
  isListening : Bool
  isAiSpeaking : Bool
  manualMode : Bool
  manualBuffer : List String
  pendingManualCommit : Bool
  commitTimerActive : Bool
  listenTimerActive : Bool
  wsOpen : Bool
  startPending : Bool
  awaitingDialogue : Bool
  awaitingVoice : Bool
  playing : Bool
  commitsSent : Nat
  pipelines : Nat
  relistenAttempts : Nat
deriving DecidableEq, Repr

/-- `stopRecording`: closes the socket, disconnects the audio graph and
stops the microphone tracks; the model keeps the two observable flags. -/
def stopRecording (s : Session) : Session :=
  { s with wsOpen := false, isListening := false }

/-- Synchronous prefix of `processUserInput`, up to the await on the
interviewer fetch: entry guard, set the exclusivity flag, stop recording,
append the user entry, clear the interim text, launch the dialogue call. -/
def processUserInput (userText : String) (s : Session) : Session :=
  if s.isProcessing ∨ jsTrim userText = "" then s
  else
    let s1 := stopRecording { s with isProcessing := true, pipelines := s.pipelines + 1 }
    { s1 with transcript := s1.transcript ++ [⟨Role.user, userText⟩],
              interim := "",
              awaitingDialogue := true }

/-- Synchronous guard of `startRecording`; the asynchronous body (token
fetch, socket open, microphone graph) is represented by `startPending`
and resolved by the `listenOk`/`listenFail` events. -/
def startRecordingAttempt (s : Session) : Session :=
  if s.isProcessing ∨ s.isListening then s
  else { s with startPending := true, relistenAttempts := s.relistenAttempts + 1 }

/-- `speak`: on blank text, call `startRecording` directly; otherwise stop
any current playback and run the synchronous prefix of
`speakWithVoiceApi` (raise `isAiSpeaking`, clear the error message,
launch the voice fetch). -/
def speakStart (text : String) (s : Session) : Session :=
  if jsTrim text = "" then startRecordingAttempt s
  else
    { s with playing := false, isAiSpeaking := true, errorMessage := none,
             awaitingVoice := true }

/-- The `done` continuation of `speakWithVoiceApi`: lower `isAiSpeaking`
and schedule the 700 ms post-speech listen-restart timer
(`startRecordingAfterAI`). -/
def speakDone (s : Session) : Session :=
  { s with isAiSpeaking := false, listenTimerActive := true }

/-- `ws.onmessage`, `committed_transcript` branch: trim guard, self-echo
guard, then either the manual buffering/finalize logic or the VAD
immediate finalize. -/
def onCommittedTranscript (raw : String) (s : Session) : Session :=
  if ¬ s.wsOpen then s
  else
    let text := jsTrim raw
    if text = "" then s
    else if s.isAiSpeaking then s
    else if s.manualMode then
      let buf := s.manualBuffer ++ [text]
      if s.pendingManualCommit then
        let fullText := jsTrim (String.intercalate " " buf)
        let s1 := stopRecording
          { s with manualBuffer := [], pendingManualCommit := false,
                   commitTimerActive := false }
        if fullText = "" then s1 else processUserInput fullText s1
      else
        { s with manualBuffer := buf, interim := String.intercalate " " buf }
    else
      processUserInput text (stopRecording s)

/-- `ws.onmessage`, `partial_transcript` branch: interim display, with the
manual buffer's fragments prepended for continuity. -/
def onPartialTranscript (text : String) (s : Session) : Session :=
  if ¬ s.wsOpen then s
  else if s.manualMode ∧ s.manualBuffer ≠ [] then
    { s with interim := String.intercalate " " s.manualBuffer ++ " " ++ text }
  else
    { s with interim := text }

/-- `ws.onmessage`, `error`/`auth_error`/`quota_exceeded` branch: surface
the message, tear the listening period down, and launch one re-listen. -/
def onChannelError (err : String) (s : Session) : Session :=
  if ¬ s.wsOpen then s
  else startRecordingAttempt (stopRecording { s with errorMessage := some err })

/-- `ws.onerror`: surface a fixed message and enter the error status;
no retry. -/
def onSocketError (s : Session) : Session :=
  if ¬ s.wsOpen then s
  else { s with errorMessage := some "Live transcription connection failed",
                status := Status.error }

/-- `commitManual`: guards (socket open and listening, AI not speaking),
then mark the pending commit, send the silent flush chunk with the commit
flag, and arm the 1500 ms timeout. -/
def onUserCommit (s : Session) : Session :=
  if ¬ s.wsOpen ∨ ¬ s.isListening then s
  else if s.isAiSpeaking then s
  else
    { s with pendingManualCommit := true,
             commitsSent := s.commitsSent + 1,
             commitTimerActive := true }

/-- The 1500 ms manual-commit timeout handler. -/
def onCommitTimeout (s : Session) : Session :=
  if ¬ s.commitTimerActive then s
  else
    let s1 := { s with commitTimerActive := false }
    if s1.pendingManualCommit ∧ s1.manualBuffer ≠ [] then
      let fullText := jsTrim (String.intercalate " " s1.manualBuffer)
      let s2 := stopRecording
        { s1 with pendingManualCommit := false, manualBuffer := [] }
      if fullText = "" then s2 else processUserInput fullText s2
    else s1

/-- Resolution of the interviewer fetch with a question: append the
assistant entry, run the synchronous body of `speak`, then the
`finally` releases the exclusivity flag. -/
def onDialogueOk (question : String) (s : Session) : Session :=
  if ¬ s.awaitingDialogue then s
  else
    let s1 := { s with awaitingDialogue := false,
                       transcript := s.transcript ++ [⟨Role.ai, question⟩] }
    { speakStart question s1 with isProcessing := false }

/-- Rejection of the interviewer fetch: the `catch` surfaces the message,
enters the error status, and releases the exclusivity flag. -/
def onDialogueErr (msg : String) (s : Session) : Session :=
  if ¬ s.awaitingDialogue then s
  else
    { s with awaitingDialogue := false, errorMessage := some msg,
             status := Status.error, isProcessing := false }

/-- Resolution of the voice fetch: playback starts. -/
def onVoiceOk (s : Session) : Session :=
  if ¬ s.awaitingVoice then s
  else { s with awaitingVoice := false, playing := true }

/-- Rejection of the voice fetch: surface the message, then `done()`. -/
def onVoiceErr (msg : String) (s : Session) : Session :=
  if ¬ s.awaitingVoice then s
  else speakDone { s with awaitingVoice := false, errorMessage := some msg }

/-- Playback `onended`: `done()`. -/
def onPlaybackEnded (s : Session) : Session :=
  if ¬ s.playing then s
  else speakDone { s with playing := false }

/-- Playback `onerror`: surface the fixed message, then `done()`. -/
def onPlaybackError (s : Session) : Session :=
  if ¬ s.playing then s
  else speakDone { s with playing := false,
                          errorMessage := some "Audio playback failed" }

/-- The 700 ms post-speech timer fires: `startRecording`. -/
def onListenTimerFire (s : Session) : Session :=
  if ¬ s.listenTimerActive then s
  else startRecordingAttempt { s with listenTimerActive := false }

/-- A launched recording start succeeds through `ws.onopen`: socket open,
microphone graph wired, listening raised, manual buffer reset. -/
def onListenOk (s : Session) : Session :=
  if ¬ s.startPending then s
  else
    let s1 := { s with startPending := false, wsOpen := true,
                       isListening := true, errorMessage := none,
                       interim := "Listening..." }
    if s1.manualMode then { s1 with manualBuffer := [] } else s1

/-- A launched recording start fails (token fetch or microphone): surface
the message and enter the error status; no retry. -/
def onListenFail (msg : String) (s : Session) : Session :=
  if ¬ s.startPending then s
  else { s with startPending := false, errorMessage := some msg,
                status := Status.error }

/-- `connect()`: reset the transcript, go `connecting` then `connected`,
and speak the fixed greeting. -/
def onConnect (s : Session) : Session :=
  speakStart "Hello, I am your OpenJournal assistant. How can I help you?"
    { s with status := Status.connected, errorMessage := none,
             transcript := [] }

/-- `disconnect()`: cancel both timers, stop playback, tear the listening
period down, reset the flags and the manual-commit state. -/
def onDisconnect (s : Session) : Session :=
  { stopRecording s with
      commitTimerActive := false, listenTimerActive := false,
      playing := false, status := Status.disconnected,
      errorMessage := none, isAiSpeaking := false, isProcessing := false,
      isListening := false, manualBuffer := [],
      pendingManualCommit := false }

/-- The asynchronous callbacks and commands that drive the session. -/
inductive Event
  | partialTranscript (text : String)
  | committedTranscript (text : String)
  | channelError (err : String)
  | socketError
  | userCommit
  | commitTimeout
  | dialogueOk (question : String)
  | dialogueErr (msg : String)
  | voiceOk
  | voiceErr (msg : String)
  | playbackEnded
  | playbackError
  | listenTimerFire
  | listenOk
  | listenFail (msg : String)
  | connectCmd
  | disconnectCmd
deriving DecidableEq, Repr

/-- One atomic event-loop dispatch. -/
def step (e : Event) (s : Session) : Session :=
  match e with
  | .partialTranscript t => onPartialTranscript t s
  | .committedTranscript t => onCommittedTranscript t s
  | .channelError err => onChannelError err s
  | .socketError => onSocketError s
  | .userCommit => onUserCommit s
  | .commitTimeout => onCommitTimeout s
  | .dialogueOk q => onDialogueOk q s
  | .dialogueErr m => onDialogueErr m s
  | .voiceOk => onVoiceOk s
  | .voiceErr m => onVoiceErr m s
  | .playbackEnded => onPlaybackEnded s
  | .playbackError => onPlaybackError s
  | .listenTimerFire => onListenTimerFire s
  | .listenOk => onListenOk s
  | .listenFail m => onListenFail m s
  | .connectCmd => onConnect s
  | .disconnectCmd => onDisconnect s

/-- Run a sequence of events. -/
def run (s : Session) (es : List Event) : Session :=
  es.foldl (fun s e => step e s) s

/-- The state right after mounting the hook. -/
def initialSession : Session where
  status := Status.disconnected
  errorMessage := none
  transcript := []
  interim := ""
  isProcessing := false
  isListening := false
  isAiSpeaking := false
  manualMode := false
  manualBuffer := []
  pendingManualCommit := false
  commitTimerActive := false
  listenTimerActive := false
  wsOpen := false
  startPending := false
  awaitingDialogue := false
  awaitingVoice := false
  playing := false
  commitsSent := 0
  pipelines := 0
  relistenAttempts := 0

/-- A connected VAD-mode session that is listening. -/
def listeningSession : Session :=
  { initialSession with status := Status.connected, wsOpen := true,
                        isListening := true }

/-- A connected manual-mode session that is listening. -/
def manualListeningSession : Session :=
  { listeningSession with manualMode := true }

/-- A session whose synthesized reply is currently playing. -/
def aiSpeakingSession : Session :=
  { initialSession with status := Status.connected, isAiSpeaking := true,
                        playing := true }

/-- Clamp a sample to `[-1, 1]` (the `Math.max(-1, Math.min(1, s))` of
the source). -/
def clampUnit (q : ℚ) : ℚ := max (-1) (min 1 q)

/-- Truncation toward zero, the conversion applied when a float is
stored into an `Int16Array` slot or passed to `DataView.setInt16`. -/
def ratTrunc (q : ℚ) : ℤ := if q < 0 then -⌊-q⌋ else ⌊q⌋

/-- Quantize one float sample to signed 16-bit PCM:
`s < 0 ? s * 0x8000 : s * 0x7fff` after the clamp. -/
def quantizeSample (q : ℚ) : ℤ :=
  let s := clampUnit q
  if s < 0 then ratTrunc (s * 32768) else ratTrunc (s * 32767)

/-- The linear-interpolation resampling loop of `float32ToPcmBase64`. -/
def resampleLinear (float32 : List ℚ) (targetRate sourceRate : ℕ) : List ℚ :=
  let stride : ℚ := (sourceRate : ℚ) / (targetRate : ℚ)
  let outLen : ℕ := (⌊(float32.length : ℚ) / stride⌋).toNat
  (List.range outLen).map fun i =>
    let srcIdx : ℚ := (i : ℚ) * stride
    let lo : ℤ := ⌊srcIdx⌋
    let hi : ℤ := min (lo + 1) ((float32.length : ℤ) - 1)
    let frac : ℚ := srcIdx - (lo : ℚ)
    float32.getD lo.toNat 0 * (1 - frac) + float32.getD hi.toNat 0 * frac

/-- Sample stage of `float32ToPcmBase64`: optional resampling when both
rates are nonzero and differ, then 16-bit quantization. -/
def float32ToPcm (float32 : List ℚ) (targetRate sourceRate : ℕ) : List ℤ :=
  let samples :=
    if targetRate ≠ 0 ∧ sourceRate ≠ 0 ∧ targetRate ≠ sourceRate then
      resampleLinear float32 targetRate sourceRate
    else float32
  samples.map quantizeSample

/-- Little-endian byte view of an `Int16Array` (`new Uint8Array(pcm.buffer)`),
with the 16-bit wrap of the slot assignment made explicit. -/
def pcmToBytes : List ℤ → List ℕ
  | [] => []
  | p :: rest =>
      (p % 65536).toNat % 256 :: (p % 65536).toNat / 256 :: pcmToBytes rest

/-- Read a little-endian int16 sequence back from bytes. -/
def pcmFromBytes : List ℕ → List ℤ
  | lo :: hi :: rest =>
      let u := lo + 256 * hi
      (if u < 32768 then (u : ℤ) else (u : ℤ) - 65536) :: pcmFromBytes rest
  | _ => []

/-- The standard base64 alphabet, by character code. -/
def b64Code (n : ℕ) : ℕ :=
  if n < 26 then 65 + n
  else if n < 52 then 71 + n
  else if n < 62 then n - 4
  else if n = 62 then 43
  else 47

/-- The standard base64 alphabet. -/
def b64Char (n : ℕ) : Char := Char.ofNat (b64Code n)

/-- Inverse of the base64 alphabet. -/
def b64Val (c : Char) : ℕ :=
  if 65 ≤ c.toNat ∧ c.toNat ≤ 90 then c.toNat - 65
  else if 97 ≤ c.toNat ∧ c.toNat ≤ 122 then c.toNat - 71
  else if 48 ≤ c.toNat ∧ c.toNat ≤ 57 then c.toNat + 4
  else if c.toNat = 43 then 62
  else 63

/-- `btoa` over a byte list: 3-byte groups to 4 characters, padded. -/
def encodeB64 : List ℕ → List Char
  | [] => []
  | [b1] => [b64Char (b1 / 4), b64Char (b1 % 4 * 16), '=', '=']
  | [b1, b2] => [b64Char (b1 / 4), b64Char (b1 % 4 * 16 + b2 / 16),
                 b64Char (b2 % 16 * 4), '=']
  | b1 :: b2 :: b3 :: rest =>
      b64Char (b1 / 4) :: b64Char (b1 % 4 * 16 + b2 / 16) ::
        b64Char (b2 % 16 * 4 + b3 / 64) :: b64Char (b3 % 64) :: encodeB64 rest

/-- `atob` over a character list: 4-character groups to bytes, honoring
padding. -/
def decodeB64 : List Char → List ℕ
  | c1 :: c2 :: c3 :: c4 :: rest =>
      let v1 := b64Val c1
      let v2 := b64Val c2
      if c3 = '=' then [v1 * 4 + v2 / 16]
      else
        let v3 := b64Val c3
        if c4 = '=' then [v1 * 4 + v2 / 16, v2 % 16 * 16 + v3 / 4]
        else
          (v1 * 4 + v2 / 16) :: (v2 % 16 * 16 + v3 / 4) ::
            (v3 % 4 * 64 + b64Val c4) :: decodeB64 rest
  | _ => []

/-- `float32ToPcmBase64(float32, targetRate, sourceRate)`: optional
linear resampling, 16-bit quantization with clamp, little-endian bytes,
base64. -/
def float32ToPcmBase64 (float32 : List ℚ) (targetRate sourceRate : ℕ) :
    String :=
  String.mk (encodeB64 (pcmToBytes (float32ToPcm float32 targetRate sourceRate)))

/-- `createSilentPcmBase64`: a base64 PCM buffer of zero samples. -/
def createSilentPcmBase64 (numSamples : ℕ) : String :=
  String.mk (encodeB64 (pcmToBytes (List.replicate numSamples 0)))

/-- Map a stored int16 back to the sample value it quantized, matching
the scale the encoder used on each sign. -/
def dequantize (p : ℤ) : ℚ := if p < 0 then (p : ℚ) / 32768 else (p : ℚ) / 32767

/-- Decode a `float32ToPcmBase64` output back to samples. -/
def decodePcmBase64 (s : String) : List ℚ :=
  (pcmFromBytes (decodeB64 s.data)).map dequantize

/-- Little-endian bytes of `DataView.setUint16`. -/
def u16le (n : ℕ) : List ℕ := [n % 65536 % 256, n % 65536 / 256]

/-- Little-endian bytes of `DataView.setUint32`. -/
def u32le (n : ℕ) : List ℕ :=
  [n % 4294967296 % 256, n % 4294967296 / 256 % 256,
   n % 4294967296 / 65536 % 256, n % 4294967296 / 16777216 % 256]

/-- Little-endian bytes of `DataView.setInt16`. -/
def int16le (p : ℤ) : List ℕ :=
  [(p % 65536).toNat % 256, (p % 65536).toNat / 256]

/-- ASCII bytes of a header tag string. -/
def asciiBytes (s : String) : List ℕ := s.data.map Char.toNat

/-- A decoded audio buffer: sample rate, frame count, and per-channel
sample data. -/
structure AudioBufferQ where
  sampleRate : ℕ
  numFrames : ℕ
  channels : List (List ℚ)
deriving DecidableEq, Repr

/-- `audioBufferToWav`: 44-byte RIFF/WAVE/fmt /data header declaring
mono 16-bit PCM, followed by the quantized samples; with more than one
channel the first two channels are averaged. -/
def audioBufferToWav (b : AudioBufferQ) : List ℕ :=
  let dataSize := b.numFrames * 2
  let header :=
    asciiBytes "RIFF" ++ u32le (36 + dataSize) ++ asciiBytes "WAVE" ++
    asciiBytes "fmt " ++ u32le 16 ++ u16le 1 ++ u16le 1 ++
    u32le b.sampleRate ++ u32le (b.sampleRate * 2) ++ u16le 2 ++ u16le 16 ++
    asciiBytes "data" ++ u32le dataSize
  let left := b.channels.getD 0 []
  let data :=
    ((List.range b.numFrames).map fun i =>
      let mixed :=
        if b.channels.length > 1 then
          (left.getD i 0 + (b.channels.getD 1 []).getD i 0) / 2
        else left.getD i 0
      int16le (quantizeSample mixed)).flatten
  header ++ data

/-- A voice offered by the `/api/voices` endpoint. -/
structure VoiceInfo where
  voice_id : String
  name : String
deriving DecidableEq, Repr

/-- The fixed fallback voice list of `/api/voices`. -/
def FALLBACK_VOICES : List VoiceInfo :=
  [⟨"21m00Tcm4TlvDq8ikWAM", "Rachel"⟩, ⟨"pNInz6obpgDQGcFmaJgB", "Adam"⟩,
   ⟨"EXAVITQu4vr4xnSDxMaL", "Bella"⟩, ⟨"ErXwobaYiN019PkySvjV", "Antoni"⟩,
   ⟨"MF3mGyEYCl7XYWbV9V6O", "Elli"⟩, ⟨"TxGEqnHWrfWFTfGW9XjX", "Josh"⟩,
   ⟨"VR6AewLTigWG4xSOukaG", "Arnold"⟩, ⟨"onwK4e9ZLuTAKqWW03F9", "Domi"⟩,
   ⟨"N2lVS1w4EtoT3dr4eOWO", "Sam"⟩]

/-- A JSON body an endpoint may answer with before reaching upstream. -/
inductive ApiBody
  | errorBody (msg : String)
  | voicesBody (voices : List VoiceInfo)
deriving DecidableEq, Repr

/-- An endpoint's behavior up to its first upstream call: either an
immediate response or proceeding to the upstream request. -/
inductive HandlerStart
  | respond (status : ℕ) (body : ApiBody)
  | callUpstream
deriving DecidableEq, Repr

/-- `/api/interviewer` credential check (runs before body validation). -/
def interviewerStart (apiKey : Option String) : HandlerStart :=
  match apiKey with
  | none => .respond 500 (.errorBody "OPENROUTER_API_KEY is not configured")
  | some _ => .callUpstream

/-- `/api/voice` credential check. -/
def voiceStart (apiKey : Option String) : HandlerStart :=
  match apiKey with
  | none => .respond 500 (.errorBody "ELEVENLABS_API_KEY is not configured")
  | some _ => .callUpstream

/-- `/api/transcribe` credential check. -/
def transcribeStart (apiKey : Option String) : HandlerStart :=
  match apiKey with
  | none => .respond 500 (.errorBody "ELEVENLABS_API_KEY is not configured")
  | some _ => .callUpstream

/-- `/api/reformat` credential check. -/
def reformatStart (apiKey : Option String) : HandlerStart :=
  match apiKey with
  | none => .respond 500 (.errorBody "OPENROUTER_API_KEY is not configured")
  | some _ => .callUpstream

/-- `/api/scribe-token` credential check. -/
def scribeTokenStart (apiKey : Option String) : HandlerStart :=
  match apiKey with
  | none => .respond 500 (.errorBody "ELEVENLABS_API_KEY is not configured")
  | some _ => .callUpstream

/-- `/api/voices` credential check: with no key it answers `200` with the
fallback list, not an error. -/
def voicesStart (apiKey : Option String) : HandlerStart :=
  match apiKey with
  | none => .respond 200 (.voicesBody FALLBACK_VOICES)
  | some _ => .callUpstream

/-- A session with the exclusivity flag raised (a turn pipeline in flight). -/
def processingSession : Session :=
  { listeningSession with isProcessing := true }

/-- A session awaiting the interviewer response of the current turn. -/
def dialogueAwaitSession : Session :=
  { initialSession with status := Status.connected, isProcessing := true,
                        awaitingDialogue := true }

/-- A session awaiting the voice-synthesis response of the current turn. -/
def voiceAwaitSession : Session :=
  { initialSession with status := Status.connected, isAiSpeaking := true,
                        awaitingVoice := true }

/-- A manual-mode session with one buffered fragment and a pending commit. -/
def pendingCommitSession : Session :=
  { manualListeningSession with pendingManualCommit := true,
                                commitTimerActive := true,
                                manualBuffer := ["I had"] }

/-- A manual-mode session with one buffered fragment whose commit timeout
is armed. -/
def bufferedTimeoutSession : Session :=
  { manualListeningSession with pendingManualCommit := true,
                                commitTimerActive := true,
                                manualBuffer := ["I had a hard day"] }

/-- A manual-mode session with an armed commit timeout and empty buffer. -/
def emptyTimeoutSession : Session :=
  { manualListeningSession with pendingManualCommit := true,
                                commitTimerActive := true }

/-- A session with a recording start launched but not yet open. -/
def startPendingSession : Session :=
  { initialSession with startPending := true }

/- ------------------------------------------------------------------ -/
/- Helper lemmas -/
/- ------------------------------------------------------------------ -/

/-- Trimming yields the empty list exactly when every character is
whitespace. -/
theorem trimChars_eq_nil (l : List Char) :
    trimChars l = [] ↔ ∀ c ∈ l, c.isWhitespace := by
  unfold trimChars
  rw [List.reverse_eq_nil_iff, List.dropWhile_eq_nil_iff]
  constructor
  · intro h c hc
    rcases (List.takeWhile_append_dropWhile (p := Char.isWhitespace) (l := l)) ▸ hc
      with hmem
    rcases List.mem_append.mp hmem with h1 | h2
    · exact List.mem_takeWhile_imp h1
    · exact h c (List.mem_reverse.mpr h2)
  · intro h c hc
    exact h c (List.dropWhile_sublist _ |>.subset (List.mem_reverse.mp hc))

/-- A string trims to empty exactly when every character is whitespace. -/
theorem jsTrim_eq_empty (s : String) :
    jsTrim s = "" ↔ ∀ c ∈ s.data, c.isWhitespace := by
  rw [jsTrim, show ("" : String) = String.mk [] from rfl]
  rw [show (String.mk (trimChars s.data) = String.mk []) ↔ trimChars s.data = []
    from ⟨fun h => congrArg String.data h, fun h => h ▸ rfl⟩]
  exact trimChars_eq_nil s.data

/-- A non-blank string stays non-blank under a second trim. -/
theorem jsTrim_jsTrim_ne (x : String) (h : jsTrim x ≠ "") :
    jsTrim (jsTrim x) ≠ "" := by
  intro hcon
  apply h
  rw [jsTrim_eq_empty] at hcon ⊢
  intro c hc
  have hsplit := List.takeWhile_append_dropWhile
    (p := Char.isWhitespace) (l := x.data)
  rw [← hsplit] at hc
  rcases List.mem_append.mp hc with h1 | h2
  · exact List.mem_takeWhile_imp h1
  · have hsplit2 := List.takeWhile_append_dropWhile
      (p := Char.isWhitespace)
      (l := (List.dropWhile Char.isWhitespace x.data).reverse)
    have hc2 : c ∈ (List.dropWhile Char.isWhitespace x.data).reverse :=
      List.mem_reverse.mpr h2
    rw [← hsplit2] at hc2
    rcases List.mem_append.mp hc2 with h3 | h4
    · exact List.mem_takeWhile_imp h3
    · apply hcon
      show c ∈ (jsTrim x).data
      rw [jsTrim]
      exact List.mem_reverse.mpr h4

/-- The base64 alphabet is inverted by its value table on six-bit inputs. -/
theorem b64Val_b64Char : ∀ n < 64, b64Val (b64Char n) = n := by decide

/-- No six-bit value encodes to the padding character. -/
theorem b64Char_ne_pad : ∀ n < 64, b64Char n ≠ '=' := by decide

/-- Base64 decoding inverts base64 encoding on byte lists. -/
theorem decodeB64_encodeB64 :
    ∀ bytes : List ℕ, (∀ b ∈ bytes, b < 256) →
      decodeB64 (encodeB64 bytes) = bytes
  | [], _ => rfl
  | [b1], h => by
      have hb : b1 < 256 := h b1 (by simp)
      have e1 := b64Val_b64Char (b1 / 4) (by omega)
      have e2 := b64Val_b64Char (b1 % 4 * 16) (by omega)
      simp [encodeB64, decodeB64, e1, e2]
      omega
  | [b1, b2], h => by
      have hb1 : b1 < 256 := h b1 (by simp)
      have hb2 : b2 < 256 := h b2 (by simp)
      have hne : b64Char (b2 % 16 * 4) ≠ '=' := b64Char_ne_pad _ (by omega)
      have e1 := b64Val_b64Char (b1 / 4) (by omega)
      have e2 := b64Val_b64Char (b1 % 4 * 16 + b2 / 16) (by omega)
      have e3 := b64Val_b64Char (b2 % 16 * 4) (by omega)
      simp [encodeB64, decodeB64, hne, e1, e2, e3]
      omega
  | b1 :: b2 :: b3 :: rest, h => by
      have hb1 : b1 < 256 := h b1 (by simp)
      have hb2 : b2 < 256 := h b2 (by simp)
      have hb3 : b3 < 256 := h b3 (by simp)
      have hne1 : b64Char (b2 % 16 * 4 + b3 / 64) ≠ '=' :=
        b64Char_ne_pad _ (by omega)
      have hne2 : b64Char (b3 % 64) ≠ '=' := b64Char_ne_pad _ (by omega)
      have e1 := b64Val_b64Char (b1 / 4) (by omega)
      have e2 := b64Val_b64Char (b1 % 4 * 16 + b2 / 16) (by omega)
      have e3 := b64Val_b64Char (b2 % 16 * 4 + b3 / 64) (by omega)
      have e4 := b64Val_b64Char (b3 % 64) (by omega)
      have ih := decodeB64_encodeB64 rest (fun x hx => h x (by simp [hx]))
      show decodeB64
        (b64Char (b1 / 4) :: b64Char (b1 % 4 * 16 + b2 / 16) ::
          b64Char (b2 % 16 * 4 + b3 / 64) :: b64Char (b3 % 64) ::
          encodeB64 rest) = b1 :: b2 :: b3 :: rest
      simp [decodeB64, hne1, hne2, e1, e2, e3, e4, ih]
      omega

/-- The byte view of an int16 sequence holds bytes. -/
theorem pcmToBytes_lt :
    ∀ pcm : List ℤ, ∀ b ∈ pcmToBytes pcm, b < 256
  | [], b, hb => by simp [pcmToBytes] at hb
  | p :: rest, b, hb => by
      simp only [pcmToBytes, List.mem_cons] at hb
      rcases hb with h | h | h
      · omega
      · have h65 : (p % 65536).toNat < 65536 := by omega
        omega
      · exact pcmToBytes_lt rest b h

/-- Reading little-endian bytes back inverts the int16 byte view on
in-range values. -/
theorem pcmFromBytes_pcmToBytes :
    ∀ pcm : List ℤ, (∀ p ∈ pcm, -32768 ≤ p ∧ p < 32768) →
      pcmFromBytes (pcmToBytes pcm) = pcm
  | [], _ => rfl
  | p :: rest, h => by
      have hp := h p (by simp)
      have ih := pcmFromBytes_pcmToBytes rest (fun x hx => h x (by simp [hx]))
      simp only [pcmToBytes, pcmFromBytes, ih, List.cons.injEq, and_true]
      split <;> omega

/-- The clamp stage lands in the unit interval. -/
theorem clampUnit_mem (q : ℚ) : -1 ≤ clampUnit q ∧ clampUnit q ≤ 1 := by
  unfold clampUnit
  exact ⟨le_max_left _ _, max_le (by norm_num) (min_le_left _ _)⟩

/-- Quantized samples always fit a signed 16-bit slot. -/
theorem quantizeSample_range (q : ℚ) :
    -32768 ≤ quantizeSample q ∧ quantizeSample q < 32768 := by
  obtain ⟨h1, h2⟩ := clampUnit_mem q
  unfold quantizeSample ratTrunc
  set s := clampUnit q with hs
  by_cases hneg : s < 0
  · rw [if_pos hneg, if_pos (by nlinarith : s * 32768 < 0)]
    have hle : -(s * 32768) ≤ 32768 := by nlinarith
    have hf : ⌊-(s * 32768)⌋ ≤ ⌊(32768 : ℚ)⌋ := Int.floor_mono hle
    have h327 : ⌊(32768 : ℚ)⌋ = 32768 := by norm_num
    have h0 : (0 : ℚ) ≤ -(s * 32768) := by nlinarith
    have hnn : 0 ≤ ⌊-(s * 32768)⌋ := Int.floor_nonneg.mpr h0
    omega
  · push_neg at hneg
    rw [if_neg (not_lt.mpr hneg),
      if_neg (not_lt.mpr (by nlinarith : (0 : ℚ) ≤ s * 32767))]
    have hle : s * 32767 ≤ 32767 := by nlinarith
    have hf : ⌊s * 32767⌋ ≤ ⌊(32767 : ℚ)⌋ := Int.floor_mono hle
    have h327 : ⌊(32767 : ℚ)⌋ = 32767 := by norm_num
    have hnn : 0 ≤ ⌊s * 32767⌋ := Int.floor_nonneg.mpr (by nlinarith)
    omega

/-- On nonpositive stored values the decoder divides by the negative-side
scale. -/
theorem dequantize_nonpos (p : ℤ) (h : p ≤ 0) :
    dequantize p = (p : ℚ) / 32768 := by
  unfold dequantize
  by_cases hp : p < 0
  · rw [if_pos hp]
  · have hz : p = 0 := by omega
    subst hz
    norm_num

/-- Decoding a quantized sample lands within one quantization step of the
clamped input. -/
theorem dequantize_quantizeSample (q : ℚ) :
    |dequantize (quantizeSample q) - clampUnit q| ≤ 1 / 32767 := by
  obtain ⟨h1, h2⟩ := clampUnit_mem q
  unfold quantizeSample ratTrunc
  set s := clampUnit q with hs
  by_cases hneg : s < 0
  · rw [if_pos hneg, if_pos (by nlinarith : s * 32768 < 0)]
    have h0 : (0 : ℚ) ≤ -(s * 32768) := by nlinarith
    have hnn : 0 ≤ ⌊-(s * 32768)⌋ := Int.floor_nonneg.mpr h0
    rw [dequantize_nonpos _ (by omega)]
    have hfl : (⌊-(s * 32768)⌋ : ℚ) ≤ -(s * 32768) := Int.floor_le _
    have hfu : -(s * 32768) < (⌊-(s * 32768)⌋ : ℚ) + 1 := Int.lt_floor_add_one _
    rw [abs_le]
    push_cast
    constructor <;> nlinarith
  · push_neg at hneg
    rw [if_neg (not_lt.mpr hneg),
      if_neg (not_lt.mpr (by nlinarith : (0 : ℚ) ≤ s * 32767))]
    have hnn : 0 ≤ ⌊s * 32767⌋ := Int.floor_nonneg.mpr (by nlinarith)
    unfold dequantize
    rw [if_neg (not_lt.mpr hnn)]
    have hfl : (⌊s * 32767⌋ : ℚ) ≤ s * 32767 := Int.floor_le _
    have hfu : s * 32767 < (⌊s * 32767⌋ : ℚ) + 1 := Int.lt_floor_add_one _
    rw [abs_le]
    constructor <;> nlinarith

/-- Flattening a map whose images are byte pairs doubles the length. -/
theorem flatten_map_pair_length {α : Type} (l : List α) (f : α → List ℕ)
    (h : ∀ x, (f x).length = 2) :
    ((l.map f).flatten).length = 2 * l.length := by
  induction l with
  | nil => simp
  | cons a t ih =>
      simp only [List.map_cons, List.flatten_cons, List.length_append,
        List.length_cons, ih, h a]
      omega

/- ------------------------------------------------------------------ -/
/- Claims -/
/- ------------------------------------------------------------------ -/

/-- C1 (counterexample): the exclusivity flag does not remain true
through the end of assistant playback.  After a VAD finalize and the
dialogue response, the voice fetch is still outstanding (`awaitingVoice`)
and the reply has not started playing, yet `isProcessing` is already
false: the source releases the flag in the `finally` of
`processUserInput` as soon as `speakWithVoiceApi` has launched the voice
fetch, leaving `isAiSpeaking` to guard the playback span. -/
theorem turnExclusivity_flagReleasedEarly :
    (run listeningSession
      [Event.committedTranscript "I had a hard day",
       Event.dialogueOk "What made it hard?"]).isProcessing = false ∧
    (run listeningSession
      [Event.committedTranscript "I had a hard day",
       Event.dialogueOk "What made it hard?"]).isAiSpeaking = true ∧
    (run listeningSession
      [Event.committedTranscript "I had a hard day",
       Event.dialogueOk "What made it hard?"]).awaitingVoice = true ∧
    (run listeningSession
      [Event.committedTranscript "I had a hard day",
       Event.dialogueOk "What made it hard?"]).playing = false ∧
    (run listeningSession
      [Event.committedTranscript "I had a hard day",
       Event.dialogueOk "What made it hard?"]).pipelines = 1 := by
  refine ⟨?_, ?_, ?_, ?_, ?_⟩ <;> decide

/-- C1 (amended): the `isProcessing` flag is set at the start of every
turn finalization and any finalize invocation arriving while it is true
is a complete no-op (state unchanged, so at most one pipeline executes);
the flag is held while the dialogue request is in flight and is released
when the dialogue response is handled — on success right after synthesis
is launched with `isAiSpeaking` raised (which guards the playback span),
on failure in the catch. -/
theorem turnExclusivity_amended (s : Session) (t q m : String) :
    (s.isProcessing = true → processUserInput t s = s) ∧
    (s.isProcessing = false → jsTrim t ≠ "" →
      (processUserInput t s).isProcessing = true ∧
      (processUserInput t s).pipelines = s.pipelines + 1 ∧
      (processUserInput t s).awaitingDialogue = true) ∧
    (s.awaitingDialogue = true → jsTrim q ≠ "" →
      (step (Event.dialogueOk q) s).isProcessing = false ∧
      (step (Event.dialogueOk q) s).isAiSpeaking = true ∧
      (step (Event.dialogueOk q) s).awaitingVoice = true) ∧
    (s.awaitingDialogue = true →
      (step (Event.dialogueErr m) s).isProcessing = false) := by
  refine ⟨fun h => ?_, fun h ht => ?_, fun h hq => ?_, fun h => ?_⟩
  · simp [processUserInput, h]
  · simp [processUserInput, stopRecording, h, ht]
  · simp [step, onDialogueOk, speakStart, h, hq]
  · simp [step, onDialogueErr, h]

/-- C1 (witness): the amended exclusivity statement instantiated on
concrete sessions. -/
theorem turnExclusivity_amended_witness :
    processUserInput "hi" processingSession = processingSession ∧
    (processUserInput "hi" listeningSession).isProcessing = true ∧
    (step (Event.dialogueOk "What made it hard?") dialogueAwaitSession).isProcessing
      = false ∧
    (step (Event.dialogueErr "boom") dialogueAwaitSession).isProcessing = false :=
  ⟨(turnExclusivity_amended processingSession "hi" "q" "m").1 rfl,
   ((turnExclusivity_amended listeningSession "hi" "q" "m").2.1 rfl
      (by decide)).1,
   ((turnExclusivity_amended dialogueAwaitSession "hi"
      "What made it hard?" "m").2.2.1 rfl (by decide)).1,
   (turnExclusivity_amended dialogueAwaitSession "hi" "q" "boom").2.2.2 rfl⟩

/-- C2: any transcript-finalizing event — a `committed_transcript`
message in either commit strategy, or a manual commit request — that
arrives while `isAiSpeaking` is true is discarded: the state is exactly
unchanged, so no pipeline starts, the transcript keeps its length, and
no commit is buffered or sent. -/
theorem selfEchoGuard (s : Session) (t : String) (h : s.isAiSpeaking = true) :
    step (Event.committedTranscript t) s = s ∧ step Event.userCommit s = s := by
  constructor
  · simp only [step, onCommittedTranscript]
    split
    · rfl
    · split
      · rfl
      · simp [h]
  · simp only [step, onUserCommit]
    split
    · rfl
    · simp [h]

/-- C2 (witness): the self-echo guard at a concrete playing session. -/
theorem selfEchoGuard_witness :
    step (Event.committedTranscript "hello there") aiSpeakingSession =
      aiSpeakingSession ∧
    step Event.userCommit aiSpeakingSession = aiSpeakingSession :=
  selfEchoGuard aiSpeakingSession "hello there" rfl

/-- C3: under the manual strategy with a pending commit, a buffered
fragment arriving before the deadline finalizes the turn immediately
with all buffered fragments joined by single spaces, clears the buffer,
the pending flag and the timeout; and a pending request resolves by
exactly one of acknowledgement or expiry: after the acknowledgement the
cancelled timeout event is a no-op, and once the pending flag is down a
later fragment only buffers without finalizing. -/
theorem manualCommitAck (s s3 : Session) (t u : String) :
    (s.wsOpen = true → s.manualMode = true → s.isAiSpeaking = false →
     s.pendingManualCommit = true → s.isProcessing = false →
     jsTrim t ≠ "" →
     jsTrim (String.intercalate " " (s.manualBuffer ++ [jsTrim t])) ≠ "" →
      (step (Event.committedTranscript t) s).transcript = s.transcript ++
          [⟨Role.user,
            jsTrim (String.intercalate " " (s.manualBuffer ++ [jsTrim t]))⟩] ∧
      (step (Event.committedTranscript t) s).manualBuffer = [] ∧
      (step (Event.committedTranscript t) s).pendingManualCommit = false ∧
      (step (Event.committedTranscript t) s).commitTimerActive = false ∧
      (step (Event.committedTranscript t) s).isListening = false ∧
      (step (Event.committedTranscript t) s).isProcessing = true ∧
      (step (Event.committedTranscript t) s).awaitingDialogue = true ∧
      (step (Event.committedTranscript t) s).pipelines = s.pipelines + 1) ∧
    (s3.commitTimerActive = false → step Event.commitTimeout s3 = s3) ∧
    (s3.wsOpen = true → s3.manualMode = true → s3.isAiSpeaking = false →
     s3.pendingManualCommit = false → jsTrim u ≠ "" →
      (step (Event.committedTranscript u) s3).transcript = s3.transcript ∧
      (step (Event.committedTranscript u) s3).pipelines = s3.pipelines ∧
      (step (Event.committedTranscript u) s3).manualBuffer =
        s3.manualBuffer ++ [jsTrim u]) := by
  refine ⟨fun hw hm ha hp hip ht hfull => ?_, fun h => ?_,
    fun hw hm ha hp hu => ?_⟩
  · simp [step, onCommittedTranscript, processUserInput, stopRecording,
      hw, hm, ha, hp, hip, ht, hfull, jsTrim_jsTrim_ne _ hfull]
  · simp [step, onCommitTimeout, h]
  · simp [step, onCommittedTranscript, hw, hm, ha, hp, hu]

/-- C3 (witness): the acknowledgement branch on a concrete pending
session, the cancelled timeout as a no-op, and buffering without a
pending commit. -/
theorem manualCommitAck_witness :
    (step (Event.committedTranscript "a hard day") pendingCommitSession).transcript
      = pendingCommitSession.transcript ++
        [⟨Role.user, jsTrim (String.intercalate " "
          (pendingCommitSession.manualBuffer ++ [jsTrim "a hard day"]))⟩] ∧
    step Event.commitTimeout listeningSession = listeningSession ∧
    (step (Event.committedTranscript "more words")
        manualListeningSession).transcript = manualListeningSession.transcript :=
  ⟨((manualCommitAck pendingCommitSession listeningSession
      "a hard day" "u").1 rfl rfl rfl rfl rfl (by decide) (by decide)).1,
   (manualCommitAck pendingCommitSession listeningSession
      "a hard day" "u").2.1 rfl,
   ((manualCommitAck pendingCommitSession manualListeningSession
      "a hard day" "more words").2.2 rfl rfl rfl rfl (by decide)).1⟩

/-- C4: under the manual strategy, when the 1500 ms timeout fires with a
pending commit, (a) with exactly one buffered (trimmed, non-blank)
fragment the turn finalizes using exactly that fragment's text, and
(b) with an empty buffer nothing is finalized: only the timer handle is
cleared, so the transcript is unchanged and the session keeps its
listening state. -/
theorem manualCommitTimeout (s s2 : Session) (f : String) :
    (s.commitTimerActive = true → s.pendingManualCommit = true →
     s.manualBuffer = [f] → jsTrim f = f → f ≠ "" → s.isProcessing = false →
      (step Event.commitTimeout s).transcript =
        s.transcript ++ [⟨Role.user, f⟩] ∧
      (step Event.commitTimeout s).pendingManualCommit = false ∧
      (step Event.commitTimeout s).manualBuffer = [] ∧
      (step Event.commitTimeout s).isListening = false ∧
      (step Event.commitTimeout s).commitTimerActive = false ∧
      (step Event.commitTimeout s).awaitingDialogue = true ∧
      (step Event.commitTimeout s).pipelines = s.pipelines + 1) ∧
    (s2.commitTimerActive = true → s2.manualBuffer = [] →
      (step Event.commitTimeout s2).transcript = s2.transcript ∧
      (step Event.commitTimeout s2).isListening = s2.isListening ∧
      (step Event.commitTimeout s2).pipelines = s2.pipelines ∧
      step Event.commitTimeout s2 = { s2 with commitTimerActive := false }) := by
  refine ⟨fun hc hp hb htr hf hip => ?_, fun hc hb => ?_⟩
  · simp [step, onCommitTimeout, processUserInput, stopRecording,
      String.intercalate, String.intercalate.go,
      hc, hp, hb, htr, hf, hip]
  · simp [step, onCommitTimeout, hc, hb]

/-- C4 (witness): the timeout branch on a concrete one-fragment session
and on a concrete empty-buffer session. -/
theorem manualCommitTimeout_witness :
    (step Event.commitTimeout bufferedTimeoutSession).transcript =
      bufferedTimeoutSession.transcript ++
        [⟨Role.user, "I had a hard day"⟩] ∧
    (step Event.commitTimeout emptyTimeoutSession).transcript =
      emptyTimeoutSession.transcript ∧
    (step Event.commitTimeout emptyTimeoutSession).isListening =
      emptyTimeoutSession.isListening :=
  ⟨((manualCommitTimeout bufferedTimeoutSession emptyTimeoutSession
      "I had a hard day").1 rfl rfl rfl (by decide) (by decide) rfl).1,
   ((manualCommitTimeout bufferedTimeoutSession emptyTimeoutSession
      "I had a hard day").2 rfl rfl).1,
   ((manualCommitTimeout bufferedTimeoutSession emptyTimeoutSession
      "I had a hard day").2 rfl rfl).2.1⟩

/-- C5 (counterexample): a speech-synthesis failure does not transition
the status to `error` and does auto-resume listening.  After a finalized
turn whose voice fetch rejects, the status is still `connected`, the
700 ms listen-restart timer has been scheduled, and only the error
message is surfaced: the `.catch` of the voice fetch calls `done()`,
which schedules `startRecordingAfterAI`, and never calls `setStatus`. -/
theorem remoteFailure_voiceErrKeepsConnected :
    (run listeningSession
      [Event.committedTranscript "I had a hard day",
       Event.dialogueOk "What made it hard?",
       Event.voiceErr "Voice API failed (500)"]).status = Status.connected ∧
    (run listeningSession
      [Event.committedTranscript "I had a hard day",
       Event.dialogueOk "What made it hard?",
       Event.voiceErr "Voice API failed (500)"]).listenTimerActive = true ∧
    (run listeningSession
      [Event.committedTranscript "I had a hard day",
       Event.dialogueOk "What made it hard?",
       Event.voiceErr "Voice API failed (500)"]).errorMessage =
      some "Voice API failed (500)" := by
  refine ⟨?_, ?_, ?_⟩ <;> decide

/-- C5 (amended): a dialogue failure sets the `error` status with the
message, releases the exclusivity flag and schedules no listen restart;
a synthesis failure surfaces the message but keeps the previous status,
lowers `isAiSpeaking` and schedules the automatic listen restart; the
exclusivity flag is released on the success path as well. -/
theorem remoteFailureHandling_amended (s s2 : Session) (e q m : String) :
    (s.awaitingDialogue = true →
      (step (Event.dialogueErr e) s).status = Status.error ∧
      (step (Event.dialogueErr e) s).errorMessage = some e ∧
      (step (Event.dialogueErr e) s).isProcessing = false ∧
      (step (Event.dialogueErr e) s).listenTimerActive = s.listenTimerActive) ∧
    (s.awaitingDialogue = true →
      (step (Event.dialogueOk q) s).isProcessing = false) ∧
    (s2.awaitingVoice = true →
      (step (Event.voiceErr m) s2).errorMessage = some m ∧
      (step (Event.voiceErr m) s2).status = s2.status ∧
      (step (Event.voiceErr m) s2).isAiSpeaking = false ∧
      (step (Event.voiceErr m) s2).listenTimerActive = true ∧
      (step (Event.voiceErr m) s2).isProcessing = s2.isProcessing) := by
  refine ⟨fun h => ?_, fun h => ?_, fun h => ?_⟩
  · simp [step, onDialogueErr, h]
  · simp only [step, onDialogueOk, h]
    simp [speakStart]
  · simp [step, onVoiceErr, speakDone, h]

/-- C5 (witness): the amended failure handling on concrete awaiting
sessions. -/
theorem remoteFailureHandling_amended_witness :
    (step (Event.dialogueErr "boom") dialogueAwaitSession).status =
      Status.error ∧
    (step (Event.dialogueOk "q") dialogueAwaitSession).isProcessing = false ∧
    (step (Event.voiceErr "Voice API failed") voiceAwaitSession).status =
      voiceAwaitSession.status ∧
    (step (Event.voiceErr "Voice API failed") voiceAwaitSession).listenTimerActive
      = true :=
  ⟨((remoteFailureHandling_amended dialogueAwaitSession voiceAwaitSession
      "boom" "q" "m").1 rfl).1,
   (remoteFailureHandling_amended dialogueAwaitSession voiceAwaitSession
      "boom" "q" "m").2.1 rfl,
   ((remoteFailureHandling_amended dialogueAwaitSession voiceAwaitSession
      "boom" "q" "Voice API failed").2.2 rfl).2.1,
   ((remoteFailureHandling_amended dialogueAwaitSession voiceAwaitSession
      "boom" "q" "Voice API failed").2.2 rfl).2.2.2.1⟩

/-- C6: an `error`/`auth_error`/`quota_exceeded` event from the realtime
channel surfaces the message, tears the listening period down and
launches exactly one re-listen attempt without entering the error
status; a socket-level error transitions the status to `error` with a
fixed message and no retry; and a failing re-listen attempt surfaces as
a persistent `error` status with no further attempt. -/
theorem realtimeChannelRecovery (s s2 s3 : Session) (err m : String) :
    (s.wsOpen = true → s.isProcessing = false →
      (step (Event.channelError err) s).errorMessage = some err ∧
      (step (Event.channelError err) s).wsOpen = false ∧
      (step (Event.channelError err) s).isListening = false ∧
      (step (Event.channelError err) s).startPending = true ∧
      (step (Event.channelError err) s).relistenAttempts =
        s.relistenAttempts + 1 ∧
      (step (Event.channelError err) s).status = s.status) ∧
    (s2.wsOpen = true →
      step Event.socketError s2 =
        { s2 with errorMessage := some "Live transcription connection failed",
                  status := Status.error }) ∧
    (s3.startPending = true →
      (step (Event.listenFail m) s3).status = Status.error ∧
      (step (Event.listenFail m) s3).errorMessage = some m ∧
      (step (Event.listenFail m) s3).startPending = false ∧
      (step (Event.listenFail m) s3).relistenAttempts = s3.relistenAttempts) := by
  refine ⟨fun hw hip => ?_, fun hw => ?_, fun hs => ?_⟩
  · simp [step, onChannelError, startRecordingAttempt, stopRecording, hw, hip]
  · simp [step, onSocketError, hw]
  · simp [step, onListenFail, hs]

/-- C6 (witness): channel recovery on concrete listening and pending
sessions. -/
theorem realtimeChannelRecovery_witness :
    (step (Event.channelError "auth failed") listeningSession).relistenAttempts
      = listeningSession.relistenAttempts + 1 ∧
    (step Event.socketError listeningSession).status = Status.error ∧
    (step (Event.listenFail "No token in response")
        startPendingSession).status = Status.error :=
  ⟨((realtimeChannelRecovery listeningSession listeningSession
      startPendingSession "auth failed" "No token in response").1
        rfl rfl).2.2.2.2.1,
   by
    rw [(realtimeChannelRecovery listeningSession listeningSession
      startPendingSession "auth failed" "No token in response").2.1 rfl],
   ((realtimeChannelRecovery listeningSession listeningSession
      startPendingSession "auth failed" "No token in response").2.2 rfl).1⟩

/-- C7: encoding a sample sequence with equal source and target rates
performs no resampling — the output is exactly the base64 of the
little-endian bytes of the quantized samples — and decoding it back
recovers each sample within one 16-bit quantization step of its
clamp to `[-1, 1]`; the function is a pure Lean function, hence
deterministic and side-effect free. -/
theorem resamplingIdentity (samples : List ℚ) (r : ℕ) :
    float32ToPcmBase64 samples r r =
      String.mk (encodeB64 (pcmToBytes (samples.map quantizeSample))) ∧
    decodePcmBase64 (float32ToPcmBase64 samples r r) =
      samples.map (fun q => dequantize (quantizeSample q)) ∧
    ∀ q ∈ samples, |dequantize (quantizeSample q) - clampUnit q| ≤ 1 / 32767 := by
  have hnr : float32ToPcm samples r r = samples.map quantizeSample := by
    unfold float32ToPcm
    simp
  refine ⟨?_, ?_, fun q _ => dequantize_quantizeSample q⟩
  · unfold float32ToPcmBase64
    rw [hnr]
  · unfold decodePcmBase64 float32ToPcmBase64
    rw [hnr]
    show (pcmFromBytes (decodeB64 (encodeB64
      (pcmToBytes (samples.map quantizeSample))))).map dequantize = _
    rw [decodeB64_encodeB64 _ (pcmToBytes_lt _),
      pcmFromBytes_pcmToBytes _ ?_, List.map_map]
    · rfl
    · intro p hp
      obtain ⟨q, hq, rfl⟩ := List.mem_map.mp hp
      exact quantizeSample_range q

/-- C7 (witness): the identity-rate encoding on a concrete sample list,
with the quantization bound at one of its members. -/
theorem resamplingIdentity_witness :
    decodePcmBase64 (float32ToPcmBase64 [1/2, -3/4] 16000 16000) =
      List.map (fun q => dequantize (quantizeSample q)) [1/2, -3/4] ∧
    |dequantize (quantizeSample (1/2)) - clampUnit (1/2)| ≤ 1 / 32767 :=
  ⟨(resamplingIdentity [1/2, -3/4] 16000).2.1,
   (resamplingIdentity [1/2, -3/4] 16000).2.2 (1/2) (by simp)⟩

/-- C8 (counterexample): with three channels the data is not the
per-frame mean of the channels.  On the one-frame buffer with channels
`0`, `1` and `-1` the produced sample bytes encode `16383` — the
quantization of `(0 + 1) / 2`, the mean of the first two channels only —
while the mean of all three channels is `0`, which would encode as
`[0, 0]`. -/
theorem wavLayout_threeChannelCex :
    (audioBufferToWav ⟨8000, 1, [[0], [1], [-1]]⟩).drop 44 = [255, 63] ∧
    int16le (quantizeSample ((0 + 1 + -1) / 3)) = [0, 0] := by
  constructor
  · have hq : quantizeSample ((2 : ℚ)⁻¹) = 16383 := by
      norm_num [quantizeSample, clampUnit, ratTrunc, min_def, max_def]
    simp [audioBufferToWav, asciiBytes, u32le, u16le, List.range_succ, int16le]
    rw [hq]
    decide
  · norm_num [quantizeSample, clampUnit, ratTrunc, min_def, max_def, int16le]

/-- C8 (amended): the produced byte buffer is a 44-byte header in the
canonical RIFF/WAVE/fmt /data order declaring mono 16-bit PCM with
`dataSize = N * 2`, followed by exactly `N * 2` sample bytes; stereo
input is averaged per frame over the first two channels (channels beyond
the second are ignored), and mono input is quantized directly. -/
theorem wavLayout_amended (b : AudioBufferQ) (L R : List ℚ) :
    (audioBufferToWav b).length = 44 + 2 * b.numFrames ∧
    (audioBufferToWav b).take 44 =
      asciiBytes "RIFF" ++ u32le (36 + b.numFrames * 2) ++ asciiBytes "WAVE" ++
      asciiBytes "fmt " ++ u32le 16 ++ u16le 1 ++ u16le 1 ++
      u32le b.sampleRate ++ u32le (b.sampleRate * 2) ++ u16le 2 ++ u16le 16 ++
      asciiBytes "data" ++ u32le (b.numFrames * 2) ∧
    (b.channels = [L, R] →
      (audioBufferToWav b).drop 44 =
        ((List.range b.numFrames).map fun i =>
          int16le (quantizeSample ((L.getD i 0 + R.getD i 0) / 2))).flatten) ∧
    (b.channels = [L] →
      (audioBufferToWav b).drop 44 =
        ((List.range b.numFrames).map fun i =>
          int16le (quantizeSample (L.getD i 0))).flatten) := by
  have hsplit : audioBufferToWav b =
      (asciiBytes "RIFF" ++ u32le (36 + b.numFrames * 2) ++ asciiBytes "WAVE" ++
       asciiBytes "fmt " ++ u32le 16 ++ u16le 1 ++ u16le 1 ++
       u32le b.sampleRate ++ u32le (b.sampleRate * 2) ++ u16le 2 ++ u16le 16 ++
       asciiBytes "data" ++ u32le (b.numFrames * 2)) ++
      ((List.range b.numFrames).map fun i =>
        int16le (quantizeSample
          (if b.channels.length > 1 then
            ((b.channels.getD 0 []).getD i 0 +
              (b.channels.getD 1 []).getD i 0) / 2
          else (b.channels.getD 0 []).getD i 0))).flatten := rfl
  have hlen : (asciiBytes "RIFF" ++ u32le (36 + b.numFrames * 2) ++
      asciiBytes "WAVE" ++ asciiBytes "fmt " ++ u32le 16 ++ u16le 1 ++
      u16le 1 ++ u32le b.sampleRate ++ u32le (b.sampleRate * 2) ++ u16le 2 ++
      u16le 16 ++ asciiBytes "data" ++ u32le (b.numFrames * 2)).length = 44 := by
    simp [asciiBytes, u32le, u16le]
  refine ⟨?_, ?_, fun h => ?_, fun h => ?_⟩
  · have hdata := flatten_map_pair_length (List.range b.numFrames)
      (fun i => int16le (quantizeSample
        (if b.channels.length > 1 then
          ((b.channels.getD 0 []).getD i 0 +
            (b.channels.getD 1 []).getD i 0) / 2
        else (b.channels.getD 0 []).getD i 0)))
      (fun i => rfl)
    rw [hsplit, List.length_append, hlen, hdata]
    simp
  · rw [hsplit, List.take_left' hlen]
  · rw [hsplit, List.drop_left' hlen, h]
    simp
  · rw [hsplit, List.drop_left' hlen, h]
    simp

/-- C8 (witness): the amended layout statement instantiated on a
concrete stereo buffer. -/
theorem wavLayout_amended_witness :
    (audioBufferToWav ⟨44100, 2, [[1/4, -1/2], [1/2, 1/2]]⟩).length =
      44 + 2 * 2 ∧
    (audioBufferToWav ⟨44100, 2, [[1/4, -1/2], [1/2, 1/2]]⟩).drop 44 =
      ((List.range 2).map fun i =>
        int16le (quantizeSample
          (([1/4, -1/2].getD i 0 + [1/2, 1/2].getD i 0) / 2))).flatten :=
  ⟨(wavLayout_amended ⟨44100, 2, [[1/4, -1/2], [1/2, 1/2]]⟩
      [1/4, -1/2] [1/2, 1/2]).1,
   (wavLayout_amended ⟨44100, 2, [[1/4, -1/2], [1/2, 1/2]]⟩
      [1/4, -1/2] [1/2, 1/2]).2.2.1 rfl⟩

/-- C9 (counterexample): the `/api/voices` endpoint with no configured
credential responds `200` with the fallback voice list, not `500` with
an error body. -/
theorem voicesEndpointMissingKeyCex :
    voicesStart none =
      HandlerStart.respond 200 (ApiBody.voicesBody FALLBACK_VOICES) ∧
    (200 : ℕ) ≠ 500 :=
  ⟨rfl, by decide⟩

/-- C9 (amended): every backend endpoint except `/api/voices` responds
`500` with a JSON error body naming the missing credential when the
required upstream credential is not configured; `/api/voices` instead
responds `200` with the built-in fallback voice list, which contains the
canonical default voice. -/
theorem endpointCredentialErrors_amended :
    interviewerStart none =
      HandlerStart.respond 500
        (ApiBody.errorBody "OPENROUTER_API_KEY is not configured") ∧
    voiceStart none =
      HandlerStart.respond 500
        (ApiBody.errorBody "ELEVENLABS_API_KEY is not configured") ∧
    transcribeStart none =
      HandlerStart.respond 500
        (ApiBody.errorBody "ELEVENLABS_API_KEY is not configured") ∧
    reformatStart none =
      HandlerStart.respond 500
        (ApiBody.errorBody "OPENROUTER_API_KEY is not configured") ∧
    scribeTokenStart none =
      HandlerStart.respond 500
        (ApiBody.errorBody "ELEVENLABS_API_KEY is not configured") ∧
    voicesStart none =
      HandlerStart.respond 200 (ApiBody.voicesBody FALLBACK_VOICES) ∧
    "21m00Tcm4TlvDq8ikWAM" ∈ FALLBACK_VOICES.map VoiceInfo.voice_id := by
  refine ⟨rfl, rfl, rfl, rfl, rfl, rfl, ?_⟩
  decide

/-- C10: a finalize invocation whose text is empty or whitespace-only is
a complete no-op (transcript unchanged, no dialogue request, flag not
set), and a `committed_transcript` message whose text trims to empty is
ignored entirely, leaving the whole session state — including the
listening flags — unchanged. -/
theorem emptyFinalizeNoOp (s : Session) (t : String) (h : jsTrim t = "") :
    processUserInput t s = s ∧ step (Event.committedTranscript t) s = s := by
  constructor
  · simp [processUserInput, h]
  · simp [step, onCommittedTranscript, h]

/-- C10 (witness): the whitespace-only no-op at a concrete listening
session. -/
theorem emptyFinalizeNoOp_witness :
    processUserInput "   " listeningSession = listeningSession ∧
    step (Event.committedTranscript "   ") listeningSession =
      listeningSession :=
  emptyFinalizeNoOp listeningSession "   " (by decide)

end OpenJournal
